import Mathlib

/-
  Shallow embedding of the daily market-commentary digest pipeline
  (src/main.py): channel-identity resolution with a shared cache,
  candidate selection over recent listing entries, and the
  acquisition-and-transcription retry loop with its error taxonomy.

  Modelling conventions:
  * Python strings are Lean `String`s; the Python string algorithms
    (`in`, `startswith`, `replace`, `rstrip`, `strip`, `lower`, slicing)
    are re-implemented structurally on `List Char` so that every
    definition evaluates by kernel reduction.
  * `\d` of the `re` module and `str.lower`/`str.strip` are modelled on
    their ASCII fragment; every string the program manipulates in the
    relevant branches is ASCII or Korean (unaffected by either).
  * External processes (yt-dlp, ffmpeg, whisper) are oracles supplied in
    an `Env`; `utc_now()` is an explicit `now : Int` in Unix-like seconds.
  * The filesystem is a pair of file-name lists (audio dir, segment dir).
    The per-attempt residue wipe wraps each `os.remove` in
    `try/except: pass`, so a removal can fail and be silently ignored;
    this is modelled by a removal oracle `rok : String → Bool` in the
    `cleanupFSr`/`process_channelR` layer (`rok f = false` means the
    `os.remove(f)` raised and the file survived). The primary
    `cleanupFS`/`process_channel` layer is the specialisation in which
    every removal succeeds — proved below as `process_channelR_true`.
  * Python exceptions are `Except String`, carrying `str(e)`.
-/

set_option autoImplicit false

namespace Digest

/-! ## Python string primitives -/

/-- Character-list prefix test (models `str.startswith` on the data). -/
def listPre : List Char → List Char → Bool
  | [], _ => true
  | _ :: _, [] => false
  | a :: as, b :: bs => (a == b) && listPre as bs

/-- Substring occurrence test on character lists (models Python `in`). -/
def listHas (pat : List Char) : List Char → Bool
  | [] => listPre pat []
  | c :: rest => listPre pat (c :: rest) || listHas pat rest

/-- Models Python `pat in s`. -/
def strHas (s pat : String) : Bool := listHas pat.data s.data

/-- Models Python `s.startswith(pre)`. -/
def strHasPre (s pre : String) : Bool := listPre pre.data s.data

/-- Models Python `s.endswith(suf)`. -/
def strHasSuf (s suf : String) : Bool := listPre suf.data.reverse s.data.reverse

/-- ASCII lower-casing of one character (fragment of `str.lower` used here). -/
def lowerChar (c : Char) : Char :=
  if 'A' ≤ c && c ≤ 'Z' then Char.ofNat (c.toNat + 32) else c

/-- Models Python `s.lower()` on the ASCII fragment. -/
def pyLower (s : String) : String := ⟨s.data.map lowerChar⟩

/-- ASCII whitespace class of Python `str.strip()` / `\s`. -/
def pyIsSpace (c : Char) : Bool :=
  c = ' ' || c = '\t' || c = '\n' || c = '\r' || c = '\x0b' || c = '\x0c'

/-- Models Python `s.strip()`. -/
def pyStrip (s : String) : String :=
  ⟨((s.data.dropWhile pyIsSpace).reverse.dropWhile pyIsSpace).reverse⟩

/-- Models Python `s[-n:]` (the last `n` characters, or all of `s`). -/
def pyTail (n : Nat) (s : String) : String := ⟨(s.data.reverse.take n).reverse⟩

/-- Models Python `opt or default` for an optional string (`None` and `""`
    are falsy). -/
def pyOrStr (a : Option String) (b : String) : String :=
  match a with
  | none => b
  | some s => if s = "" then b else s

/-- Models Python `a or b` on two optional strings, keeping the result
    optional (`None` and `""` are falsy). -/
def pyOr (a b : Option String) : Option String :=
  match a with
  | none => b
  | some s => if s = "" then b else some s

/-- Truthiness of an optional string: `None` and `""` collapse to `none`. -/
def pyOrNone (a : Option String) : Option String :=
  match a with
  | none => none
  | some s => if s = "" then none else some s

/-- Fuelled worker for `str.replace`: scans left-to-right, substituting
    non-overlapping occurrences. Fuel bounds the number of scan steps. -/
def replaceAllAux (pat rep : List Char) : Nat → List Char → List Char
  | 0, s => s
  | _ + 1, [] => []
  | fuel + 1, c :: rest =>
    if decide (pat ≠ []) && listPre pat (c :: rest) then
      rep ++ replaceAllAux pat rep fuel (List.drop (pat.length - 1) rest)
    else
      c :: replaceAllAux pat rep fuel rest

/-- Models Python `s.replace(pat, rep)` (all non-overlapping occurrences). -/
def strReplace (s pat rep : String) : String :=
  ⟨replaceAllAux pat.data rep.data s.data.length s.data⟩

/-- Models Python `s.rstrip(c)` for a one-character strip set. -/
def strRStripChar (s : String) (c : Char) : String :=
  ⟨(s.data.reverse.dropWhile (· = c)).reverse⟩

/-- Models `"\n".join(texts)`. -/
def joinNl : List String → String
  | [] => ""
  | [t] => t
  | t :: u :: rest => t ++ "\n" ++ joinNl (u :: rest)

/-- Code-point lexicographic `<` on character lists (Python string `<`). -/
def listLt : List Char → List Char → Bool
  | [], [] => false
  | [], _ :: _ => true
  | _ :: _, [] => false
  | a :: as, b :: bs => if a < b then true else if b < a then false else listLt as bs

/-- Python string `≤` by code points. -/
def strLe (a b : String) : Bool := !(listLt b.data a.data)

/-- Insert into a sorted list of strings. -/
def insSorted (a : String) : List String → List String
  | [] => [a]
  | b :: rest => if strLe a b then a :: b :: rest else b :: insSorted a rest

/-- Models Python `sorted` on a list of strings. -/
def sortStrings : List String → List String
  | [] => []
  | a :: rest => insSorted a (sortStrings rest)

/-- Whether an `Except` value is an error (a raised Python exception). -/
def exIsErr {ε α : Type} : Except ε α → Bool
  | .error _ => true
  | .ok _ => false

/-! ## Configuration constants (src/main.py, top of file) -/

def RECENT_HOURS : Nat := 24

def SEGMENT_SECONDS : Nat := 15 * 60

def MAX_RETRIES : Nat := 2

/-! ## Error classification (`label_error`, `stage_reason_from_exception`) -/

/-- Ordered first-match-wins substring classification of error text
    (src/main.py `label_error`). -/
def label_error (stderr_or_msg : String) : String :=
  let s := pyLower stderr_or_msg
  if strHas s "http error 403" || strHas s "403 forbidden" then "HTTP_403"
  else if strHas s "http error 401" || strHas s "401" then "HTTP_401"
  else if strHas s "http error 429" || strHas s "too many requests" || strHas s "429" then "HTTP_429"
  else if strHas s "http error 404" || strHas s "requested entity was not found" || strHas s "404" then "HTTP_404"
  else if strHas s "not available in your country" || strHas s "geoblock" then "GEO_BLOCK"
  else if strHas s "sign in to confirm your age" || strHas s "age-restricted" then "AGE_RESTRICTED"
  else if strHas s "private video" || strHas s "this video is private" then "PRIVATE_VIDEO"
  else if strHas s "premiere" && (strHas s "not started" || strHas s "will begin") then "PREMIERE_NOT_STARTED"
  else if strHas s "live" && (strHas s "is currently live" || strHas s "livestream" || strHas s "live event") then "LIVE"
  else if strHas s "no video formats found" then "NO_FORMAT"
  else if strHas s "requested format is not available" then "FORMAT_UNAVAILABLE"
  else if strHas s "unable to download webpage" || strHas s "failed to download" then "DOWNLOAD_WEBPAGE_FAIL"
  else if strHas s "could not find ffmpeg" then "FFMPEG_MISSING"
  else if strHas s "ffmpeg" && (strHas s "error" || strHas s "invalid" || strHas s "failed") then "FFMPEG_FAIL"
  else if strHas s "timeout" || strHas s "timed out" then "TIMEOUT"
  else if strHas s "whisper 결과 텍스트가 비어" || (strHas s "empty" && strHas s "text") then "WHISPER_EMPTY"
  else "UNKNOWN"

/-- Maps an exception message to a (stage, human reason) pair
    (src/main.py `stage_reason_from_exception`). -/
def stage_reason_from_exception (msg : String) : String × String :=
  if strHas msg "yt-dlp 채널 조회 실패" || strHas msg "채널 조회 실패" || strHas msg "channel_id 추출 실패" then
    ("FETCH", "채널 메타/ID 조회 실패")
  else if strHas msg "오디오 다운로드 실패" || strHas msg "오디오 파일이 생성되지 않음" then
    ("DOWNLOAD", "오디오 다운로드 실패(차단/접근제한/포맷)")
  else if strHas msg "ffmpeg 정규화 실패" then
    ("DOWNLOAD", "오디오 정규화 실패(ffmpeg/코덱)")
  else if strHas msg "ffmpeg 분할 실패" then
    ("SPLIT", "오디오 분할 실패(ffmpeg segment)")
  else if strHas msg "Whisper 결과 텍스트가 비어" then
    ("TRANSCRIBE", "Whisper 결과 텍스트 비어 있음")
  else
    ("TRANSCRIBE", "처리 중 알 수 없는 오류")

/-! ## Dates and the recency window -/

/-- A calendar date as parsed from a `YYYYMMDD` string. -/
structure Date where
  y : Nat
  m : Nat
  d : Nat
deriving DecidableEq

def isLeap (y : Nat) : Bool := (y % 4 = 0 && y % 100 ≠ 0) || y % 400 = 0

def daysInMonth (y m : Nat) : Nat :=
  if m = 2 then (if isLeap y then 29 else 28)
  else if m = 4 || m = 6 || m = 9 || m = 11 then 30
  else 31

/-- The dates accepted by `datetime.strptime(s, "%Y%m%d")`. -/
def validDate (dt : Date) : Bool :=
  1 ≤ dt.y && dt.y ≤ 9999 && 1 ≤ dt.m && dt.m ≤ 12 && 1 ≤ dt.d && dt.d ≤ daysInMonth dt.y dt.m

def leapsBefore (y : Nat) : Nat := (y - 1) / 4 - (y - 1) / 100 + (y - 1) / 400

def daysBeforeMonth (y m : Nat) : Nat :=
  (List.range (m - 1)).foldl (fun acc i => acc + daysInMonth y (i + 1)) 0

/-- Proleptic-Gregorian day number of a date (day 0 = 0001-01-01). -/
def dayNumber (dt : Date) : Nat :=
  365 * (dt.y - 1) + leapsBefore dt.y + daysBeforeMonth dt.y dt.m + (dt.d - 1)

/-- The UTC-midnight instant of a date, in seconds on the same epoch as
    the explicit `now` parameter. -/
def dateSeconds (dt : Date) : Int := 86400 * (dayNumber dt : Int)

def isAsciiDigit (c : Char) : Bool := '0' ≤ c && c ≤ '9'

def digitVal (c : Char) : Nat := c.toNat - 48

def natOfDigits (cs : List Char) : Nat := cs.foldl (fun a c => 10 * a + digitVal c) 0

/-- Models `parse_upload_date_yyyymmdd` (src/main.py). A string that is not
    eight digits returns `none` (the regex gate); an eight-digit string that
    is not a valid calendar date makes `datetime.strptime` raise
    `ValueError`, modelled as `.error`. -/
def parse_upload_date_yyyymmdd (s : String) : Except String (Option Date) :=
  let cs := s.data
  if cs.length = 8 && cs.all isAsciiDigit then
    let dt : Date := ⟨natOfDigits (cs.take 4), natOfDigits ((cs.drop 4).take 2), natOfDigits (cs.drop 6)⟩
    if validDate dt then .ok (some dt) else .error "time data does not match format"
  else .ok none

/-- Models `within_recent_window` (src/main.py); `utc_now()` is the explicit
    `now`. Note there is no lower bound: any instant not more than `hours`
    in the past (including the future) passes. -/
def within_recent_window (now : Int) (upload_dt : Option Date) (hours : Nat) : Bool :=
  match upload_dt with
  | none => false
  | some dt => decide (now - dateSeconds dt ≤ 3600 * (hours : Int))

/-! ## Listing entries and the Candidate Window Selector -/

/-- Live state carried by a raw listing entry. `pick_latest_video` never
    reads this field; it is part of the raw metadata so that the spec's
    live-exclusion property can be stated against the code. -/
inductive LiveState where
  | NOT_LIVE
  | LIVE_ENDED
  | LIVE_ONGOING
  | LIVE_UPCOMING
  | UNKNOWN
deriving DecidableEq

/-- One flat-playlist entry as consumed by `pick_latest_video`: the three
    fields the code reads (`id`, `title`, `upload_date`) plus the live
    state present in the raw metadata. -/
structure RawEntry where
  id : Option String
  title : Option String
  upload_date : Option String
  live_status : LiveState
deriving DecidableEq

/-- The scan inside `pick_latest_video`: first entry with a truthy id and
    a parsed upload date inside the recency window wins. A `ValueError`
    from date parsing propagates. -/
def pickFrom (now : Int) : List RawEntry → Except String (Option (String × String × Option String))
  | [] => .ok none
  | e :: rest =>
    match pyOrNone e.id with
    | none => pickFrom now rest
    | some vid =>
      match parse_upload_date_yyyymmdd (pyOrStr e.upload_date "") with
      | .error msg => .error msg
      | .ok upload_dt =>
        if upload_dt.isSome && within_recent_window now upload_dt RECENT_HOURS then
          .ok (some ("https://www.youtube.com/watch?v=" ++ vid, pyOrStr e.title "", e.upload_date))
        else pickFrom now rest

/-- Models `pick_latest_video` (src/main.py). The listing oracle is the
    outcome of the yt-dlp flat-playlist call: `.error stderr` for a
    non-zero exit, `.ok entries` for the decoded `entries` array. Returns
    `.ok none` when no entry among the first 30 qualifies. -/
def pick_latest_video (listing : Except String (List RawEntry)) (now : Int) :
    Except String (Option (String × String × Option String)) :=
  match listing with
  | .error err => .error ("yt-dlp 채널 조회 실패(" ++ label_error err ++ "): " ++ pyTail 500 err)
  | .ok entries => pickFrom now (entries.take 30)

/-! ## Channel Identity Resolver (`resolve_uc_id`) -/

/-- The metadata fields `resolve_uc_id` reads from the decoded yt-dlp
    single-JSON output. -/
structure YtMeta where
  channel_id : Option String
  uploader_id : Option String
deriving DecidableEq

/-- Outcome of the yt-dlp lookup performed on a cache miss. -/
inductive NetResult where
  | fail (stderr : String)
  | ok (meta : YtMeta)

/-- The shared UC-id cache (`Dict[str, str]`); lookup finds the first
    binding, and insertion prepends, which matches dict-assignment
    semantics under that lookup. -/
abbrev Cache := List (String × String)

def cacheGet : Cache → String → Option String
  | [], _ => none
  | (k, v) :: rest, u => if k = u then some v else cacheGet rest u

def cacheSet (c : Cache) (k v : String) : Cache := (k, v) :: c

/-- The normalisation applied to a channel reference before the cache is
    consulted: mobile-domain rewrite plus trailing-slash strip. -/
def normalize_channel_url (url : String) : String :=
  strRStripChar (strReplace url "m.youtube.com" "www.youtube.com") '/'

/-- Models `resolve_uc_id` (src/main.py). Returns the Python result or the
    raised message, together with the cache after the call and the number
    of network lookups performed (0 on a cache hit, 1 otherwise). The cache
    is written only in the branch where the extracted id passed the `UC`
    shape check, mirroring the statement order of the source. -/
def resolve_uc_id (net : String → NetResult) (channel_url : String) (cache : Cache) :
    Except String String × Cache × Nat :=
  let u := normalize_channel_url channel_url
  match cacheGet cache u with
  | some v => (.ok v, cache, 0)
  | none =>
    match net (u ++ "/videos") with
    | .fail err => (.error ("채널 조회 실패(" ++ label_error err ++ "): " ++ pyTail 500 err), cache, 1)
    | .ok meta =>
      match pyOr meta.channel_id meta.uploader_id with
      | none => (.error "channel_id 추출 실패", cache, 1)
      | some cid =>
        if cid = "" || !(strHasPre cid "UC") then (.error "channel_id 추출 실패", cache, 1)
        else (.ok cid, cacheSet cache u cid, 1)

def make_channel_videos_url (uc_id : String) : String :=
  "https://www.youtube.com/channel/" ++ uc_id ++ "/videos"

/-! ## Working files and `safe_filename` -/

/-- The character class `[\\/:*?"<>|]` of `safe_filename`. -/
def badFilenameChar (c : Char) : Bool :=
  c = '\\' || c = '/' || c = ':' || c = '*' || c = '?' || c = '\"' || c = '<' || c = '>' || c = '|'

/-- Models `re.sub(cls+, rep, s)` for a one-character replacement: each
    maximal run of class characters becomes a single `rep`. The flag says
    whether the previous character was in the class. -/
def subRuns (bad : Char → Bool) (rep : Char) : List Char → Bool → List Char
  | [], _ => []
  | c :: rest, prevBad =>
    if bad c then (if prevBad then [] else [rep]) ++ subRuns bad rep rest true
    else c :: subRuns bad rep rest false

/-- Models `safe_filename` (src/main.py): collapse forbidden filename
    characters to `_`, collapse whitespace runs to a single space, strip,
    truncate to 120 characters. -/
def safe_filename (name : String) : String :=
  let s1 : String := ⟨subRuns badFilenameChar '_' name.data false⟩
  let s2 := pyStrip ⟨subRuns pyIsSpace ' ' s1.data false⟩
  if s2.data.length > 120 then ⟨s2.data.take 120⟩ else s2

/-- The working-file prefix of a channel run:
    `safe_filename(f"{name}_{res.upload_date or 'nodate'}")`. -/
def baseName (name : String) (udate : Option String) : String :=
  safe_filename (name ++ "_" ++ pyOrStr udate "nodate")

/-- The two working directories, as lists of file names (`_work/audio`
    and `_work/segments`). -/
structure FS where
  audio : List String
  segs : List String
deriving DecidableEq

/-- The per-attempt residue wipe in the case where every attempted
    `os.remove` succeeds: every file whose name starts with the working
    prefix is removed from both directories. The general wipe, in which a
    removal may fail and be swallowed by the `try/except: pass` of
    src/main.py:367-376, is `cleanupFSr`; this is `cleanupFSr` at the
    always-succeeding removal oracle (`cleanupFSr_true`). -/
def cleanupFS (base : String) (fs : FS) : FS :=
  { audio := fs.audio.filter (fun f => !(strHasPre f base)),
    segs := fs.segs.filter (fun f => !(strHasPre f base)) }

/-- The per-attempt residue wipe, faithful to the `try/except: pass`
    around each `os.remove`: removal is attempted for every file whose
    name starts with the working prefix, and a failed removal
    (`rok f = false`) is silently ignored, leaving the file in place. A
    file is gone afterwards iff it matched the prefix and its removal
    succeeded. -/
def cleanupFSr (rok : String → Bool) (base : String) (fs : FS) : FS :=
  { audio := fs.audio.filter (fun f => !(strHasPre f base && rok f)),
    segs := fs.segs.filter (fun f => !(strHasPre f base && rok f)) }

/-! ## Acquisition & transcription pipeline stages -/

/-- External-tool behaviour for one pipeline attempt. `download` and
    `split` list the files the tool leaves in the audio/segment directory
    (or the stderr of a non-zero exit); `normalize` is the ffmpeg
    normalisation outcome; `transcribe` is whisper's `text` field per
    segment path (`none` models a missing/None field). -/
structure StageOracle where
  download : Except String (List String)
  normalize : Except String Unit
  split : Except String (List String)
  transcribe : String → Option String

/-- Models `download_audio` (src/main.py): raise on non-zero yt-dlp exit;
    otherwise scan the audio directory for the first file named
    `base.<ext>` and raise `FILE_NOT_FOUND` if none exists. -/
def download_audio (o : StageOracle) (base : String) (fs : FS) : Except String (String × FS) :=
  match o.download with
  | .error err => .error ("오디오 다운로드 실패(" ++ label_error err ++ "): " ++ pyTail 500 err)
  | .ok created =>
    let audio2 := fs.audio ++ created
    match audio2.find? (fun fn => strHasPre fn (base ++ ".")) with
    | some fn => .ok (fn, { fs with audio := audio2 })
    | none => .error "오디오 파일이 생성되지 않음(FILE_NOT_FOUND)"

/-- Models `normalize_to_wav_mono16k`: raise on ffmpeg failure, else the
    output `base_clean.wav` appears in the audio directory. -/
def normalize_to_wav (o : StageOracle) (base : String) (fs : FS) : Except String FS :=
  match o.normalize with
  | .error err => .error ("ffmpeg 정규화 실패(" ++ label_error err ++ "): " ++ pyTail 500 err)
  | .ok _ => .ok { fs with audio := fs.audio ++ [base ++ "_clean.wav"] }

/-- Models `split_wav`: raise on ffmpeg failure; otherwise collect the
    sorted `base_*.wav` files of the segment directory, falling back to
    the whole input file when the scan finds none. -/
def split_wav (o : StageOracle) (base input_wav : String) (fs : FS) :
    Except String (List String × FS) :=
  match o.split with
  | .error err => .error ("ffmpeg 분할 실패(" ++ label_error err ++ "): " ++ pyTail 500 err)
  | .ok created =>
    let segs2 := fs.segs ++ created
    let matched := segs2.filter (fun f => strHasPre f (base ++ "_") && strHasSuf f ".wav")
    let sortedSegs := sortStrings matched
    .ok ((if sortedSegs = [] then [input_wav] else sortedSegs), { fs with segs := segs2 })

/-- The accumulation loop of `transcribe_segments`: strip each segment's
    text and keep the non-empty ones in order. -/
def collectTexts (tr : String → Option String) : List String → List String
  | [] => []
  | seg :: rest =>
    let text := pyStrip (pyOrStr (tr seg) "")
    if text = "" then collectTexts tr rest else text :: collectTexts tr rest

/-- Models `transcribe_segments` (src/main.py): newline-join the non-empty
    stripped texts, then strip the concatenation. -/
def transcribe_segments (tr : String → Option String) (segments : List String) : String :=
  pyStrip (joinNl (collectTexts tr segments))

/-- One pass of the pipeline body after the residue wipe: download →
    normalize → split → transcribe, raising `WHISPER_EMPTY` on an empty
    concatenated transcript. Returns the transcript or the raised message,
    plus the directory state. -/
def pipelineStages (o : StageOracle) (base : String) (fs0 : FS) : Except String String × FS :=
  match download_audio o base fs0 with
  | .error e => (.error e, fs0)
  | .ok (_audio_path, fs1) =>
    match normalize_to_wav o base fs1 with
    | .error e => (.error e, fs1)
    | .ok fs2 =>
      match split_wav o base (base ++ "_clean.wav") fs2 with
      | .error e => (.error e, fs2)
      | .ok (segs, fs3) =>
        let transcript := transcribe_segments o.transcribe segs
        if transcript = "" then
          (.error "Whisper 결과 텍스트가 비어 있음(WHISPER_EMPTY)", fs3)
        else (.ok transcript, fs3)

/-- One full retry-loop iteration body: wipe the working prefix from both
    directories, then run the pipeline. The third component records the
    directory state the attempt actually ran against (observational). -/
def runPipelineAttempt (o : StageOracle) (base : String) (fs : FS) :
    Except String String × FS × FS :=
  let fs0 := cleanupFS base fs
  let out := pipelineStages o base fs0
  (out.1, out.2, fs0)

/-- One retry-loop iteration body under the removal-aware wipe: attempt
    the prefix removals (failures swallowed), then run the pipeline. The
    third component again records the state the attempt ran against. -/
def runPipelineAttemptR (rok : String → Bool) (o : StageOracle) (base : String) (fs : FS) :
    Except String String × FS × FS :=
  let fs0 := cleanupFSr rok base fs
  let out := pipelineStages o base fs0
  (out.1, out.2, fs0)

/-- The outcome of one attempt as a function of the oracle alone; the
    residue wipe makes the attempt independent of the pre-existing
    directory contents (proved below as `runPipelineAttempt_fst`). -/
def attemptPure (o : StageOracle) (base : String) : Except String String :=
  match o.download with
  | .error err => .error ("오디오 다운로드 실패(" ++ label_error err ++ "): " ++ pyTail 500 err)
  | .ok created =>
    match created.find? (fun fn => strHasPre fn (base ++ ".")) with
    | none => .error "오디오 파일이 생성되지 않음(FILE_NOT_FOUND)"
    | some _ =>
      match o.normalize with
      | .error err => .error ("ffmpeg 정규화 실패(" ++ label_error err ++ "): " ++ pyTail 500 err)
      | .ok _ =>
        match o.split with
        | .error err => .error ("ffmpeg 분할 실패(" ++ label_error err ++ "): " ++ pyTail 500 err)
        | .ok created2 =>
          let matched := created2.filter (fun f => strHasPre f (base ++ "_") && strHasSuf f ".wav")
          let sortedSegs := sortStrings matched
          let segs := if sortedSegs = [] then [base ++ "_clean.wav"] else sortedSegs
          let transcript := transcribe_segments o.transcribe segs
          if transcript = "" then .error "Whisper 결과 텍스트가 비어 있음(WHISPER_EMPTY)"
          else .ok transcript

/-! ## Channel outcome record and the retry controller -/

/-- Models the `ChannelResult` dataclass (src/main.py). -/
structure ChannelResult where
  channel : String
  status : String
  channel_url : Option String := none
  uc_id : Option String := none
  resolved_videos_url : Option String := none
  video_url : Option String := none
  video_title : Option String := none
  upload_date : Option String := none
  attempts : Nat := 0
  failed_stage : Option String := none
  fail_label : Option String := none
  reason : Option String := none
  error_detail : Option String := none
  attempt_fail_logs : List String := []
  transcript_chars : Nat := 0

/-- The `final_stage/final_label/final_reason/final_detail` locals of the
    retry loop. -/
structure Finals where
  stage : Option String := none
  label : Option String := none
  reason : Option String := none
  detail : Option String := none

/-- The external world of one channel run: the resolver network, the
    listing outcome, the per-attempt tool behaviour and the clock. -/
structure Env where
  net : String → NetResult
  listing : Except String (List RawEntry)
  stages : Nat → StageOracle
  now : Int

/-- One failed-attempt log line, as appended to `attempt_fail_logs`. -/
def failLogLine (k : Nat) (stage label reason msg : String) : String :=
  toString (k + 1) ++ "회차 실패 | stage=" ++ stage ++ " | label=" ++ label ++
    " | reason=" ++ reason ++ " | detail=" ++ pyTail 220 msg

/-- Models the retry loop of `process_channel` (`for attempt in
    range(MAX_RETRIES + 1)`). `k` is the current 0-based attempt index and
    the last argument the number of iterations left; the fixed 3-second
    pause between attempts has no observable effect and is dropped. The
    `List FS` component is the observational trace of the directory state
    each executed attempt started from (one entry per attempt). -/
def attemptLoop (env : Env) (base : String) (res : ChannelResult) (fin : Finals)
    (fs : FS) (k : Nat) : Nat → ChannelResult × FS × List FS
  | 0 =>
    ({ res with
        status := "FAILED",
        failed_stage := some (pyOrStr fin.stage "UNKNOWN"),
        fail_label := some (pyOrStr fin.label "UNKNOWN"),
        reason := some (pyOrStr fin.reason "알 수 없는 실패"),
        error_detail := some (pyOrStr fin.detail "상세 오류 없음") }, fs, [])
  | remaining + 1 =>
    let res1 := { res with attempts := k + 1 }
    let r := runPipelineAttempt (env.stages k) base fs
    match r.1 with
    | .ok transcript =>
      ({ res1 with
          status := "SUCCESS",
          transcript_chars := transcript.data.length,
          failed_stage := none,
          fail_label := none,
          reason := some (if res1.attempts > 1 then
            "성공 (총 " ++ toString res1.attempts ++ "회 시도)" else "성공"),
          error_detail := none }, r.2.1, [r.2.2])
    | .error msg =>
      let sr := stage_reason_from_exception msg
      let label := label_error msg
      let res2 := { res1 with attempt_fail_logs :=
        res1.attempt_fail_logs ++ [failLogLine k sr.1 label sr.2 msg] }
      let fin2 : Finals :=
        { stage := some sr.1, label := some label,
          reason := some sr.2, detail := some (pyTail 800 msg) }
      let rec2 := attemptLoop env base res2 fin2 r.2.1 (k + 1) remaining
      (rec2.1, rec2.2.1, r.2.2 :: rec2.2.2)

/-- The retry loop of `process_channel` under the removal-aware wipe:
    identical to `attemptLoop` except that each iteration's residue wipe
    is `cleanupFSr rok`, so files whose removal fails survive into the
    attempt. `attemptLoopR (fun _ => true)` coincides with `attemptLoop`
    (`attemptLoopR_true`). -/
def attemptLoopR (rok : String → Bool) (env : Env) (base : String) (res : ChannelResult)
    (fin : Finals) (fs : FS) (k : Nat) : Nat → ChannelResult × FS × List FS
  | 0 =>
    ({ res with
        status := "FAILED",
        failed_stage := some (pyOrStr fin.stage "UNKNOWN"),
        fail_label := some (pyOrStr fin.label "UNKNOWN"),
        reason := some (pyOrStr fin.reason "알 수 없는 실패"),
        error_detail := some (pyOrStr fin.detail "상세 오류 없음") }, fs, [])
  | remaining + 1 =>
    let res1 := { res with attempts := k + 1 }
    let r := runPipelineAttemptR rok (env.stages k) base fs
    match r.1 with
    | .ok transcript =>
      ({ res1 with
          status := "SUCCESS",
          transcript_chars := transcript.data.length,
          failed_stage := none,
          fail_label := none,
          reason := some (if res1.attempts > 1 then
            "성공 (총 " ++ toString res1.attempts ++ "회 시도)" else "성공"),
          error_detail := none }, r.2.1, [r.2.2])
    | .error msg =>
      let sr := stage_reason_from_exception msg
      let label := label_error msg
      let res2 := { res1 with attempt_fail_logs :=
        res1.attempt_fail_logs ++ [failLogLine k sr.1 label sr.2 msg] }
      let fin2 : Finals :=
        { stage := some sr.1, label := some label,
          reason := some sr.2, detail := some (pyTail 800 msg) }
      let rec2 := attemptLoopR rok env base res2 fin2 r.2.1 (k + 1) remaining
      (rec2.1, rec2.2.1, r.2.2 :: rec2.2.2)

/-- The full outcome of `process_channel`: the result record, the cache
    after the call, the final directory state, and the observational
    per-attempt trace of `attemptLoop`. -/
structure RunOut where
  res : ChannelResult
  cache : Cache
  fs : FS
  trace : List FS

/-- Models `process_channel` (src/main.py): resolve the UC id (failure →
    immediate `FAILED` at stage `FETCH`), pick the latest video (failure →
    immediate `FAILED` at stage `FETCH`; no candidate → `NO_VIDEO`), then
    run the bounded retry loop over the acquisition pipeline. -/
def process_channel (env : Env) (name url : String) (cache : Cache) (fs : FS) : RunOut :=
  let res0 : ChannelResult := { channel := name, status := "FAILED", channel_url := some url }
  match resolve_uc_id env.net url cache with
  | (.error msg, cache1, _) =>
    ⟨{ res0 with
        status := "FAILED",
        failed_stage := some "FETCH",
        fail_label := some (label_error msg),
        reason := some "UC ID(채널 고유 ID) 해석 실패",
        error_detail := some (pyTail 800 msg) }, cache1, fs, []⟩
  | (.ok uc, cache1, _) =>
    let res1 :=
      { res0 with
          uc_id := some uc,
          resolved_videos_url := some (make_channel_videos_url uc) }
    match pick_latest_video env.listing env.now with
    | .error msg =>
      ⟨{ res1 with
          status := "FAILED",
          failed_stage := some "FETCH",
          fail_label := some (label_error msg),
          reason := some "채널에서 최신 영상 조회 실패",
          error_detail := some (pyTail 800 msg) }, cache1, fs, []⟩
    | .ok none =>
      ⟨{ res1 with
          status := "NO_VIDEO",
          reason := some ("최근 " ++ toString RECENT_HOURS ++ "시간 내 업로드 영상 없음") },
       cache1, fs, []⟩
    | .ok (some (vurl, title, udate)) =>
      let res2 :=
        { res1 with
            video_url := some vurl,
            video_title := some title,
            upload_date := udate }
      let base := baseName name udate
      let lo := attemptLoop env base res2 {} fs 0 (MAX_RETRIES + 1)
      ⟨lo.1, cache1, lo.2.1, lo.2.2⟩

/-- `process_channel` under the removal-aware residue wipe: identical
    control flow, with the retry loop replaced by `attemptLoopR rok`.
    `process_channelR (fun _ => true)` coincides with `process_channel`
    (`process_channelR_true`). -/
def process_channelR (rok : String → Bool) (env : Env) (name url : String)
    (cache : Cache) (fs : FS) : RunOut :=
  let res0 : ChannelResult := { channel := name, status := "FAILED", channel_url := some url }
  match resolve_uc_id env.net url cache with
  | (.error msg, cache1, _) =>
    ⟨{ res0 with
        status := "FAILED",
        failed_stage := some "FETCH",
        fail_label := some (label_error msg),
        reason := some "UC ID(채널 고유 ID) 해석 실패",
        error_detail := some (pyTail 800 msg) }, cache1, fs, []⟩
  | (.ok uc, cache1, _) =>
    let res1 :=
      { res0 with
          uc_id := some uc,
          resolved_videos_url := some (make_channel_videos_url uc) }
    match pick_latest_video env.listing env.now with
    | .error msg =>
      ⟨{ res1 with
          status := "FAILED",
          failed_stage := some "FETCH",
          fail_label := some (label_error msg),
          reason := some "채널에서 최신 영상 조회 실패",
          error_detail := some (pyTail 800 msg) }, cache1, fs, []⟩
    | .ok none =>
      ⟨{ res1 with
          status := "NO_VIDEO",
          reason := some ("최근 " ++ toString RECENT_HOURS ++ "시간 내 업로드 영상 없음") },
       cache1, fs, []⟩
    | .ok (some (vurl, title, udate)) =>
      let res2 :=
        { res1 with
            video_url := some vurl,
            video_title := some title,
            upload_date := udate }
      let base := baseName name udate
      let lo := attemptLoopR rok env base res2 {} fs 0 (MAX_RETRIES + 1)
      ⟨lo.1, cache1, lo.2.1, lo.2.2⟩

/-- Decidable check that a directory state holds no file with the given
    working prefix, in either directory. -/
def fsCleanChk (base : String) (s : FS) : Bool :=
  s.audio.all (fun f => !(strHasPre f base)) && s.segs.all (fun f => !(strHasPre f base))

/-- Decidable check that every file of a directory state either does not
    carry the working prefix or is a file whose removal failed
    (`rok f = false`): the best-effort guarantee the swallowed
    `os.remove` errors leave. -/
def fsResidChk (rok : String → Bool) (base : String) (s : FS) : Bool :=
  s.audio.all (fun f => !(strHasPre f base && rok f)) &&
  s.segs.all (fun f => !(strHasPre f base && rok f))

/-! ## Concrete instances used to evaluate the model -/

/-- A listing entry for an in-progress live stream carrying an in-window
    upload date. -/
def liveOngoingEntry : RawEntry :=
  ⟨some "liveVid", some "Live now", some "20260110", .LIVE_ONGOING⟩

/-- One hour after 2026-01-10 00:00 UTC. -/
def nowLive : Int := dateSeconds ⟨2026, 1, 10⟩ + 3600

def eOlder : RawEntry := ⟨some "old", some "older video", some "20260110", .NOT_LIVE⟩

def eNewer : RawEntry := ⟨some "new", some "newer video", some "20260111", .NOT_LIVE⟩

/-- 2026-01-11 00:00 UTC: both `eOlder` and `eNewer` are inside the 24h
    window at this instant. -/
def nowTie : Int := dateSeconds ⟨2026, 1, 11⟩

/-- An entry whose `upload_date` is eight digits but not a calendar date,
    so `strptime` raises. -/
def badDateEntry : RawEntry := ⟨some "v1", some "t", some "20269999", .NOT_LIVE⟩

/-- An entry far older than any recent window. -/
def outsideEntry : RawEntry := ⟨some "v2", some "t2", some "20200101", .NOT_LIVE⟩

/-- A stage oracle whose download always fails. -/
def oracleDlFail : StageOracle :=
  ⟨.error "HTTP Error 403: Forbidden", .ok (), .ok [], fun _ => none⟩

/-- A stage oracle whose stages all succeed, transcribing each segment to
    a fixed text. -/
def oracleOk : StageOracle :=
  ⟨.ok ["ch_20260110.m4a"], .ok (), .ok [], fun _ => some " hello "⟩

/-- A stage oracle whose stages all succeed but whose transcriber returns
    only whitespace. -/
def oracleWs : StageOracle :=
  ⟨.ok ["ch_20260110.m4a"], .ok (), .ok [], fun _ => some "  \t "⟩

/-- A resolver network answering every lookup with channel id `UCabc`. -/
def netUC : String → NetResult := fun _ => .ok ⟨some "UCabc", none⟩

/-- A one-entry in-window listing. -/
def listingOne : Except String (List RawEntry) :=
  .ok [⟨some "vid", some "t", some "20260110", .NOT_LIVE⟩]

/-- Environment whose pipeline fails on every attempt. -/
def envC3 : Env :=
  { net := netUC, listing := listingOne,
    stages := fun _ => oracleDlFail, now := dateSeconds ⟨2026, 1, 10⟩ }

/-- Environment whose transcriber yields only whitespace on every attempt. -/
def envC4 : Env :=
  { net := netUC, listing := listingOne,
    stages := fun _ => oracleWs, now := dateSeconds ⟨2026, 1, 10⟩ }

/-- Environment whose listing holds one calendar-invalid dated entry. -/
def envC6cex : Env :=
  { net := netUC, listing := .ok [badDateEntry],
    stages := fun _ => oracleDlFail, now := 0 }

/-- Environment whose only listing entry is far outside the window. -/
def envC6am : Env :=
  { net := netUC, listing := .ok [outsideEntry],
    stages := fun _ => oracleDlFail, now := dateSeconds ⟨2026, 1, 1⟩ }

/-- Environment whose resolver network fails. -/
def envC8 : Env :=
  { net := fun _ => .fail "HTTP Error 404: Not Found", listing := .ok [],
    stages := fun _ => oracleDlFail, now := 0 }

/-- Environment failing on the first attempt and succeeding on the second. -/
def envC9 : Env :=
  { net := netUC, listing := listingOne,
    stages := fun k => if k = 0 then oracleDlFail else oracleOk,
    now := dateSeconds ⟨2026, 1, 10⟩ }

/-- A resolver network answering with a non-`UC` channel id. -/
def netBadId : String → NetResult := fun _ => .ok ⟨some "notUC", none⟩

/-- A stale segment left behind by an earlier run of the same channel:
    it carries the working prefix `ch_20260110` and the `.wav` suffix. -/
def staleSeg : String := "ch_20260110_stale_000.wav"

/-- A removal oracle under which `os.remove` fails exactly on the stale
    segment (the failure the source swallows with `except: pass`). -/
def rokBad : String → Bool := fun f => if f = staleSeg then false else true

/-- A stage oracle whose stages succeed, whose split produces no new
    segment, and whose transcriber tells the stale segment apart from any
    other path. -/
def oracleStale : StageOracle :=
  ⟨.ok ["ch_20260110.m4a"], .ok (), .ok [],
   fun p => if p = staleSeg then some "stale words" else some "fresh text"⟩

/-- Environment for the stale-artifact run. -/
def envC7 : Env :=
  { net := netUC, listing := listingOne,
    stages := fun _ => oracleStale, now := dateSeconds ⟨2026, 1, 10⟩ }

/-- Initial directory state holding only the stale segment. -/
def fsStale : FS := ⟨[], [staleSeg]⟩

/-! ## Basic lemmas about the string and list primitives -/

theorem str_data_append (a b : String) : (a ++ b).data = a.data ++ b.data := rfl

theorem listPre_of_append (a b : List Char) :
    ∀ l, listPre (a ++ b) l = true → listPre a l = true := by
  induction a with
  | nil => intro l _; rfl
  | cons c t ih =>
    intro l h
    cases l with
    | nil => simp [listPre] at h
    | cons d u =>
      simp only [List.cons_append, listPre, Bool.and_eq_true] at h ⊢
      exact ⟨h.1, ih u h.2⟩

theorem strHasPre_mono (f base ext : String) (h : strHasPre f (base ++ ext) = true) :
    strHasPre f base = true := by
  unfold strHasPre at h ⊢
  rw [str_data_append] at h
  exact listPre_of_append base.data ext.data f.data h

theorem exIsErr_iff {ε α : Type} (x : Except ε α) :
    exIsErr x = true ↔ ∃ e, x = .error e := by
  cases x <;> simp [exIsErr]

theorem find?_append_of_none {α : Type} (p : α → Bool) (l m : List α)
    (h : ∀ f ∈ l, p f = false) : (l ++ m).find? p = m.find? p := by
  induction l with
  | nil => rfl
  | cons a t ih =>
    have ha := h a (List.mem_cons_self a t)
    simp only [List.cons_append, List.find?, ha]
    exact ih (fun f hf => h f (List.mem_cons_of_mem a hf))

theorem filter_append_of_none {α : Type} (p : α → Bool) (l m : List α)
    (h : ∀ f ∈ l, p f = false) : (l ++ m).filter p = m.filter p := by
  induction l with
  | nil => rfl
  | cons a t ih =>
    have ha := h a (List.mem_cons_self a t)
    simp only [List.cons_append, List.filter_cons, ha, Bool.false_eq_true, if_false]
    exact ih (fun f hf => h f (List.mem_cons_of_mem a hf))

/-! ## The residue wipe and attempt independence -/

theorem cleanup_audio_no_pre (base : String) (fs : FS) :
    ∀ f ∈ (cleanupFS base fs).audio, strHasPre f base = false := by
  intro f hf
  have h := (List.mem_filter.mp hf).2
  simpa using h

theorem cleanup_segs_no_pre (base : String) (fs : FS) :
    ∀ f ∈ (cleanupFS base fs).segs, strHasPre f base = false := by
  intro f hf
  have h := (List.mem_filter.mp hf).2
  simpa using h

theorem cleanup_chk (base : String) (fs : FS) : fsCleanChk base (cleanupFS base fs) = true := by
  unfold fsCleanChk
  rw [Bool.and_eq_true, List.all_eq_true, List.all_eq_true]
  constructor
  · intro f hf
    simpa using cleanup_audio_no_pre base fs f hf
  · intro f hf
    simpa using cleanup_segs_no_pre base fs f hf

/-- The observational third component of an attempt is the post-wipe state. -/
theorem runPipelineAttempt_trace (o : StageOracle) (base : String) (fs : FS) :
    (runPipelineAttempt o base fs).2.2 = cleanupFS base fs := rfl

/-- The residue wipe makes the outcome of one pipeline attempt a function
    of the stage oracle alone: no file left by a previous attempt (or
    present beforehand) influences it. -/
theorem runPipelineAttempt_fst (o : StageOracle) (base : String) (fs : FS) :
    (runPipelineAttempt o base fs).1 = attemptPure o base := by
  have hA : ∀ f ∈ (cleanupFS base fs).audio, strHasPre f (base ++ ".") = false := by
    intro f hf
    cases hp : strHasPre f (base ++ ".") with
    | false => rfl
    | true =>
      have := strHasPre_mono f base "." hp
      rw [cleanup_audio_no_pre base fs f hf] at this
      exact absurd this (by simp)
  have hS : ∀ f ∈ (cleanupFS base fs).segs,
      (strHasPre f (base ++ "_") && strHasSuf f ".wav") = false := by
    intro f hf
    cases hp : strHasPre f (base ++ "_") with
    | false => simp [hp]
    | true =>
      have := strHasPre_mono f base "_" hp
      rw [cleanup_segs_no_pre base fs f hf] at this
      exact absurd this (by simp)
  unfold runPipelineAttempt pipelineStages attemptPure download_audio normalize_to_wav split_wav
  cases hd : o.download with
  | error e => rfl
  | ok created =>
    simp only [find?_append_of_none _ _ _ hA]
    cases hf : created.find? (fun fn => strHasPre fn (base ++ ".")) with
    | none => rfl
    | some fn =>
      cases hn : o.normalize with
      | error e => rfl
      | ok u =>
        cases hs : o.split with
        | error e => rfl
        | ok created2 =>
          simp only [filter_append_of_none _ _ _ hS]
          split <;> split <;> rfl

/-! ## Retry-loop lemmas -/

/-- If every attempt's oracle yields a failing attempt, the loop runs all
    its iterations, ends `FAILED`, counts the attempts, and logs one
    failure line per attempt. -/
theorem attemptLoop_all_fail (env : Env) (base : String)
    (hfail : ∀ i, exIsErr (attemptPure (env.stages i) base) = true) :
    ∀ n k res fin fs, 1 ≤ n →
      (attemptLoop env base res fin fs k n).1.status = "FAILED" ∧
      (attemptLoop env base res fin fs k n).1.attempts = k + n ∧
      (attemptLoop env base res fin fs k n).1.attempt_fail_logs.length =
        res.attempt_fail_logs.length + n := by
  intro n
  induction n with
  | zero =>
    intro k res fin fs h
    exact absurd h (by omega)
  | succ m ih =>
    intro k res fin fs _
    obtain ⟨msg, hmsg⟩ := (exIsErr_iff _).mp (hfail k)
    simp only [attemptLoop, runPipelineAttempt_fst, hmsg]
    cases m with
    | zero =>
      simp [attemptLoop]
    | succ m2 =>
      have h := ih (k + 1)
        { res with
            attempts := k + 1,
            attempt_fail_logs := res.attempt_fail_logs ++
              [failLogLine k (stage_reason_from_exception msg).1 (label_error msg)
                (stage_reason_from_exception msg).2 msg] }
        { stage := some (stage_reason_from_exception msg).1,
          label := some (label_error msg),
          reason := some (stage_reason_from_exception msg).2,
          detail := some (pyTail 800 msg) }
        (runPipelineAttempt (env.stages k) base fs).2.1 (by omega)
      refine ⟨h.1, ?_, ?_⟩
      · rw [h.2.1]; omega
      · rw [h.2.2]; simp; omega

/-- If the first `j` attempts fail and attempt `j` succeeds with
    transcript `t`, the loop returns `SUCCESS` after `j + 1` attempts with
    `j` failure log lines, clears the failure fields, and reports the
    transcript length. -/
theorem attemptLoop_succ_at (env : Env) (base : String) :
    ∀ j n k res fin fs t,
      (∀ i, i < j → exIsErr (attemptPure (env.stages (k + i)) base) = true) →
      attemptPure (env.stages (k + j)) base = .ok t →
      j < n →
      (attemptLoop env base res fin fs k n).1.status = "SUCCESS" ∧
      (attemptLoop env base res fin fs k n).1.attempts = k + j + 1 ∧
      (attemptLoop env base res fin fs k n).1.attempt_fail_logs.length =
        res.attempt_fail_logs.length + j ∧
      (attemptLoop env base res fin fs k n).1.failed_stage = none ∧
      (attemptLoop env base res fin fs k n).1.fail_label = none ∧
      (attemptLoop env base res fin fs k n).1.error_detail = none ∧
      (attemptLoop env base res fin fs k n).1.transcript_chars = t.data.length := by
  intro j
  induction j with
  | zero =>
    intro n k res fin fs t hb hs hjn
    cases n with
    | zero => omega
    | succ m =>
      have hs0 : attemptPure (env.stages k) base = .ok t := by simpa using hs
      simp [attemptLoop, runPipelineAttempt_fst, hs0]
  | succ j ih =>
    intro n k res fin fs t hb hs hjn
    cases n with
    | zero => omega
    | succ m =>
      have h0 : exIsErr (attemptPure (env.stages k) base) = true := by
        simpa using hb 0 (Nat.succ_pos j)
      obtain ⟨msg, hmsg⟩ := (exIsErr_iff _).mp h0
      simp only [attemptLoop, runPipelineAttempt_fst, hmsg]
      have hb2 : ∀ i, i < j → exIsErr (attemptPure (env.stages (k + 1 + i)) base) = true := by
        intro i hi
        have heq : k + 1 + i = k + (i + 1) := by omega
        rw [heq]
        exact hb (i + 1) (by omega)
      have hs2 : attemptPure (env.stages (k + 1 + j)) base = .ok t := by
        have heq : k + 1 + j = k + (j + 1) := by omega
        rw [heq]; exact hs
      have h := ih m (k + 1)
        { res with
            attempts := k + 1,
            attempt_fail_logs := res.attempt_fail_logs ++
              [failLogLine k (stage_reason_from_exception msg).1 (label_error msg)
                (stage_reason_from_exception msg).2 msg] }
        { stage := some (stage_reason_from_exception msg).1,
          label := some (label_error msg),
          reason := some (stage_reason_from_exception msg).2,
          detail := some (pyTail 800 msg) }
        (runPipelineAttempt (env.stages k) base fs).2.1 t hb2 hs2 (by omega)
      refine ⟨h.1, ?_, ?_, h.2.2.2.1, h.2.2.2.2.1, h.2.2.2.2.2.1, h.2.2.2.2.2.2⟩
      · rw [h.2.1]; omega
      · rw [h.2.2.1]; simp; omega

/-- The loop never changes the `upload_date` field of the record. -/
theorem attemptLoop_upload_date (env : Env) (base : String) :
    ∀ n res fin fs k,
      (attemptLoop env base res fin fs k n).1.upload_date = res.upload_date := by
  intro n
  induction n with
  | zero => intro res fin fs k; simp [attemptLoop]
  | succ m ih =>
    intro res fin fs k
    simp only [attemptLoop]
    cases (runPipelineAttempt (env.stages k) base fs).1 with
    | ok t => simp
    | error msg => simpa using ih _ _ _ _

/-- Every directory state an executed attempt starts from is wiped clean
    of the working prefix (one trace entry per attempt, including the
    first). -/
theorem attemptLoop_trace_clean (env : Env) (base : String) :
    ∀ n res fin fs k,
      ((attemptLoop env base res fin fs k n).2.2).all (fsCleanChk base) = true := by
  intro n
  induction n with
  | zero => intro res fin fs k; rfl
  | succ m ih =>
    intro res fin fs k
    simp only [attemptLoop]
    cases (runPipelineAttempt (env.stages k) base fs).1 with
    | ok t =>
      simp [runPipelineAttempt_trace, cleanup_chk]
    | error msg =>
      simp only [List.all_cons, runPipelineAttempt_trace, cleanup_chk, Bool.true_and]
      exact ih _ _ _ _

/-! ## The removal-aware wipe -/

theorem listFilterExt {α : Type} (p q : α → Bool) (h : ∀ a, p a = q a) :
    ∀ l : List α, l.filter p = l.filter q := by
  intro l
  induction l with
  | nil => rfl
  | cons a t ih => simp only [List.filter_cons, h a, ih]

/-- With an always-succeeding removal oracle the removal-aware wipe is
    the plain wipe: the primary model is the removals-succeed case. -/
theorem cleanupFSr_true (base : String) (fs : FS) :
    cleanupFSr (fun _ => true) base fs = cleanupFS base fs := by
  unfold cleanupFSr cleanupFS
  rw [listFilterExt _ (fun f => !(strHasPre f base)) (fun f => by simp) fs.audio,
      listFilterExt _ (fun f => !(strHasPre f base)) (fun f => by simp) fs.segs]

/-- After the removal-aware wipe, every remaining file either lacks the
    working prefix or is one whose removal failed. -/
theorem cleanupFSr_chk (rok : String → Bool) (base : String) (fs : FS) :
    fsResidChk rok base (cleanupFSr rok base fs) = true := by
  unfold fsResidChk cleanupFSr
  rw [Bool.and_eq_true, List.all_eq_true, List.all_eq_true]
  constructor <;> intro f hf <;> exact (List.mem_filter.mp hf).2

theorem runPipelineAttemptR_trace (rok : String → Bool) (o : StageOracle)
    (base : String) (fs : FS) :
    (runPipelineAttemptR rok o base fs).2.2 = cleanupFSr rok base fs := rfl

theorem runPipelineAttemptR_true (o : StageOracle) (base : String) (fs : FS) :
    runPipelineAttemptR (fun _ => true) o base fs = runPipelineAttempt o base fs := by
  unfold runPipelineAttemptR runPipelineAttempt
  rw [cleanupFSr_true]

/-- Every directory state an executed attempt starts from, under the
    removal-aware wipe, satisfies the best-effort residue guarantee. -/
theorem attemptLoopR_trace_resid (rok : String → Bool) (env : Env) (base : String) :
    ∀ n res fin fs k,
      ((attemptLoopR rok env base res fin fs k n).2.2).all (fsResidChk rok base) = true := by
  intro n
  induction n with
  | zero => intro res fin fs k; rfl
  | succ m ih =>
    intro res fin fs k
    simp only [attemptLoopR]
    cases (runPipelineAttemptR rok (env.stages k) base fs).1 with
    | ok t =>
      simp [runPipelineAttemptR_trace, cleanupFSr_chk]
    | error msg =>
      simp only [List.all_cons, runPipelineAttemptR_trace, cleanupFSr_chk, Bool.true_and]
      exact ih _ _ _ _

/-- The removal-aware loop never changes the `upload_date` field. -/
theorem attemptLoopR_upload_date (rok : String → Bool) (env : Env) (base : String) :
    ∀ n res fin fs k,
      (attemptLoopR rok env base res fin fs k n).1.upload_date = res.upload_date := by
  intro n
  induction n with
  | zero => intro res fin fs k; simp [attemptLoopR]
  | succ m ih =>
    intro res fin fs k
    simp only [attemptLoopR]
    cases (runPipelineAttemptR rok (env.stages k) base fs).1 with
    | ok t => simp
    | error msg => simpa using ih _ _ _ _

/-- With an always-succeeding removal oracle, the removal-aware loop is
    the primary loop. -/
theorem attemptLoopR_true (env : Env) (base : String) :
    ∀ n res fin fs k,
      attemptLoopR (fun _ => true) env base res fin fs k n =
        attemptLoop env base res fin fs k n := by
  intro n
  induction n with
  | zero => intro res fin fs k; rfl
  | succ m ih =>
    intro res fin fs k
    simp only [attemptLoopR, attemptLoop, runPipelineAttemptR_true]
    cases (runPipelineAttempt (env.stages k) base fs).1 with
    | ok t => rfl
    | error msg =>
      dsimp only
      rw [ih]

/-- With an always-succeeding removal oracle, the removal-aware channel
    run is exactly `process_channel`: the primary model is the faithful
    model specialised to removals that all succeed. -/
theorem process_channelR_true (env : Env) (name url : String) (cache : Cache) (fs : FS) :
    process_channelR (fun _ => true) env name url cache fs =
      process_channel env name url cache fs := by
  unfold process_channelR process_channel
  rcases hrr : resolve_uc_id env.net url cache with ⟨r1, c1, n1⟩
  cases r1 with
  | error msg => rfl
  | ok uc =>
    cases hp : pick_latest_video env.listing env.now with
    | error msg => rfl
    | ok ov =>
      cases ov with
      | none => rfl
      | some v =>
        obtain ⟨vurl, title, udate⟩ := v
        dsimp only
        rw [attemptLoopR_true]

/-- R-analogue of `process_channel_eq_loop`. -/
theorem process_channelR_eq_loop (rok : String → Bool) (env : Env) (name url : String)
    (cache : Cache) (fs : FS) (uc : String) (c1 : Cache) (m : Nat)
    (vurl title : String) (udate : Option String)
    (hres : resolve_uc_id env.net url cache = (.ok uc, c1, m))
    (hpick : pick_latest_video env.listing env.now = .ok (some (vurl, title, udate))) :
    process_channelR rok env name url cache fs =
      ⟨(attemptLoopR rok env (baseName name udate)
          { channel := name, status := "FAILED", channel_url := some url,
            uc_id := some uc, resolved_videos_url := some (make_channel_videos_url uc),
            video_url := some vurl, video_title := some title, upload_date := udate }
          {} fs 0 (MAX_RETRIES + 1)).1,
        c1,
        (attemptLoopR rok env (baseName name udate)
          { channel := name, status := "FAILED", channel_url := some url,
            uc_id := some uc, resolved_videos_url := some (make_channel_videos_url uc),
            video_url := some vurl, video_title := some title, upload_date := udate }
          {} fs 0 (MAX_RETRIES + 1)).2.1,
        (attemptLoopR rok env (baseName name udate)
          { channel := name, status := "FAILED", channel_url := some url,
            uc_id := some uc, resolved_videos_url := some (make_channel_videos_url uc),
            video_url := some vurl, video_title := some title, upload_date := udate }
          {} fs 0 (MAX_RETRIES + 1)).2.2⟩ := by
  unfold process_channelR
  rw [hres, hpick]

/-! ## Whitespace-only transcription -/

theorem collectTexts_nil_of_ws (tr : String → Option String)
    (h : ∀ p, pyStrip (pyOrStr (tr p) "") = "") :
    ∀ segs, collectTexts tr segs = [] := by
  intro segs
  induction segs with
  | nil => rfl
  | cons seg rest ih =>
    simp only [collectTexts, h seg, if_pos rfl]
    exact ih

/-- A transcriber returning only whitespace (or nothing) yields the empty
    concatenated transcript for every segment list. -/
theorem transcribe_segments_empty_of_ws (tr : String → Option String)
    (h : ∀ p, pyStrip (pyOrStr (tr p) "") = "") :
    ∀ segs, transcribe_segments tr segs = "" := by
  intro segs
  unfold transcribe_segments
  rw [collectTexts_nil_of_ws tr h segs]
  rfl

/-- Under a whitespace-only transcriber, every pipeline attempt fails
    (whether an earlier stage fails or the empty-transcript check fires). -/
theorem attemptPure_err_of_ws (o : StageOracle) (base : String)
    (h : ∀ p, pyStrip (pyOrStr (o.transcribe p) "") = "") :
    exIsErr (attemptPure o base) = true := by
  unfold attemptPure
  cases o.download with
  | error e => rfl
  | ok created =>
    dsimp only
    cases created.find? (fun fn => strHasPre fn (base ++ ".")) with
    | none => rfl
    | some fn =>
      dsimp only
      cases o.normalize with
      | error e => rfl
      | ok u =>
        dsimp only
        cases o.split with
        | error e => rfl
        | ok created2 =>
          simp only [transcribe_segments_empty_of_ws o.transcribe h, if_pos rfl]
          rfl

/-! ## Selector lemmas -/

/-- An entry whose date field yields no parse (without raising) or a parse
    outside the recency window. Such entries are skipped by the scan. -/
def entryOutside (now : Int) (e : RawEntry) : Prop :=
  parse_upload_date_yyyymmdd (pyOrStr e.upload_date "") = .ok none ∨
  (∃ dt, parse_upload_date_yyyymmdd (pyOrStr e.upload_date "") = .ok (some dt) ∧
    within_recent_window now (some dt) RECENT_HOURS = false)

theorem pickFrom_none_of_outside (now : Int) :
    ∀ l : List RawEntry, (∀ e ∈ l, entryOutside now e) → pickFrom now l = .ok none := by
  intro l
  induction l with
  | nil => intro _; rfl
  | cons e rest ih =>
    intro h
    have he := h e (List.mem_cons_self e rest)
    have hrest := ih (fun x hx => h x (List.mem_cons_of_mem e hx))
    unfold pickFrom
    cases pyOrNone e.id with
    | none => exact hrest
    | some vid =>
      rcases he with hnone | ⟨dt, hdt, hw⟩
      · rw [hnone]
        simpa using hrest
      · rw [hdt]
        simpa [hw] using hrest

/-- With a successful resolution and a successful listing whose first 30
    entries are all outside the window (or unparsed), the Selector returns
    `None`. -/
theorem pick_latest_video_none (listing : Except String (List RawEntry)) (now : Int)
    (entries : List RawEntry)
    (hl : listing = .ok entries)
    (h : ∀ e ∈ entries, entryOutside now e) :
    pick_latest_video listing now = .ok none := by
  rw [hl]
  unfold pick_latest_video
  exact pickFrom_none_of_outside now (entries.take 30)
    (fun e he => h e (List.take_subset 30 entries he))

/-! ## `process_channel` branch lemmas -/

/-- When both the resolution and the selection succeed, `process_channel`
    is the retry loop run from the populated record. -/
theorem process_channel_eq_loop (env : Env) (name url : String) (cache : Cache) (fs : FS)
    (uc : String) (c1 : Cache) (m : Nat) (vurl title : String) (udate : Option String)
    (hres : resolve_uc_id env.net url cache = (.ok uc, c1, m))
    (hpick : pick_latest_video env.listing env.now = .ok (some (vurl, title, udate))) :
    process_channel env name url cache fs =
      ⟨(attemptLoop env (baseName name udate)
          { channel := name, status := "FAILED", channel_url := some url,
            uc_id := some uc, resolved_videos_url := some (make_channel_videos_url uc),
            video_url := some vurl, video_title := some title, upload_date := udate }
          {} fs 0 (MAX_RETRIES + 1)).1,
        c1,
        (attemptLoop env (baseName name udate)
          { channel := name, status := "FAILED", channel_url := some url,
            uc_id := some uc, resolved_videos_url := some (make_channel_videos_url uc),
            video_url := some vurl, video_title := some title, upload_date := udate }
          {} fs 0 (MAX_RETRIES + 1)).2.1,
        (attemptLoop env (baseName name udate)
          { channel := name, status := "FAILED", channel_url := some url,
            uc_id := some uc, resolved_videos_url := some (make_channel_videos_url uc),
            video_url := some vurl, video_title := some title, upload_date := udate }
          {} fs 0 (MAX_RETRIES + 1)).2.2⟩ := by
  unfold process_channel
  rw [hres, hpick]

/-- When the resolution succeeds and the Selector finds no candidate, the
    outcome is `NO_VIDEO` with no attempt performed. -/
theorem process_channel_no_video (env : Env) (name url : String) (cache : Cache) (fs : FS)
    (uc : String) (c1 : Cache) (m : Nat)
    (hres : resolve_uc_id env.net url cache = (.ok uc, c1, m))
    (hpick : pick_latest_video env.listing env.now = .ok none) :
    (process_channel env name url cache fs).res.status = "NO_VIDEO" ∧
    (process_channel env name url cache fs).res.attempts = 0 ∧
    (process_channel env name url cache fs).res.failed_stage = none ∧
    (process_channel env name url cache fs).res.attempt_fail_logs = [] ∧
    (process_channel env name url cache fs).trace = [] := by
  unfold process_channel
  rw [hres, hpick]
  exact ⟨rfl, rfl, rfl, rfl, rfl⟩

/-! ## Resolver lemmas -/

/-- After a successful resolution, resolving any reference with the same
    normal form against the updated cache is a pure cache hit: same id,
    unchanged cache, zero lookups; and the first call needed at most one. -/
theorem resolve_uc_id_idem (net : String → NetResult) (url url2 : String)
    (cache c1 : Cache) (ucid : String) (n : Nat)
    (hnorm : normalize_channel_url url = normalize_channel_url url2)
    (h1 : resolve_uc_id net url cache = (.ok ucid, c1, n)) :
    resolve_uc_id net url2 c1 = (.ok ucid, c1, 0) ∧ n ≤ 1 := by
  simp only [resolve_uc_id] at h1 ⊢
  rw [← hnorm]
  cases hc : cacheGet cache (normalize_channel_url url) with
  | some v =>
    rw [hc] at h1
    simp only [Prod.mk.injEq, Except.ok.injEq] at h1
    obtain ⟨hv, hcc, hn⟩ := h1
    subst hv
    subst hcc
    rw [hc]
    exact ⟨rfl, by omega⟩
  | none =>
    rw [hc] at h1
    cases hnet : net (normalize_channel_url url ++ "/videos") with
    | fail err =>
      rw [hnet] at h1
      simp at h1
    | ok meta =>
      rw [hnet] at h1
      dsimp only at h1
      cases hp : pyOr meta.channel_id meta.uploader_id with
      | none =>
        rw [hp] at h1
        simp at h1
      | some cid =>
        rw [hp] at h1
        dsimp only at h1
        cases hcond : (decide (cid = "") || !strHasPre cid "UC") with
        | true =>
          rw [hcond] at h1
          simp at h1
        | false =>
          rw [hcond] at h1
          simp only [Bool.false_eq_true, if_false, Prod.mk.injEq, Except.ok.injEq] at h1
          obtain ⟨hv, hcc, hn⟩ := h1
          subst hv
          subst hcc
          simp [cacheSet, cacheGet]
          omega

/-- A failed resolution (any of the three failure modes) leaves the cache
    untouched: the write happens only after the id passed validation. -/
theorem resolve_uc_id_err_cache (net : String → NetResult) (url : String)
    (cache : Cache) (msg : String)
    (h : (resolve_uc_id net url cache).1 = .error msg) :
    (resolve_uc_id net url cache).2.1 = cache := by
  simp only [resolve_uc_id] at h ⊢
  cases hc : cacheGet cache (normalize_channel_url url) with
  | some v =>
    rw [hc] at h
  | none =>
    rw [hc] at h
    cases hnet : net (normalize_channel_url url ++ "/videos") with
    | fail err => rfl
    | ok meta =>
      rw [hnet] at h
      dsimp only at h ⊢
      cases hp : pyOr meta.channel_id meta.uploader_id with
      | none => rfl
      | some cid =>
        rw [hp] at h
        dsimp only at h ⊢
        cases hcond : (decide (cid = "") || !strHasPre cid "UC") with
        | true => rfl
        | false =>
          rw [hcond] at h
          simp at h

/-! ## Claim theorems -/

/-- C1: the claim says `pick_latest_video` never returns an item whose
    live state is `LIVE_ONGOING` or `LIVE_UPCOMING`. The code never reads
    the live state: on a one-entry candidate set whose entry is an
    in-progress live stream with an in-window upload date, the Selector
    returns exactly that entry, refuting the claim on the code. -/
theorem C1_selector_returns_live_ongoing :
    liveOngoingEntry.live_status = LiveState.LIVE_ONGOING ∧
    pick_latest_video (.ok [liveOngoingEntry]) nowLive =
      .ok (some ("https://www.youtube.com/watch?v=liveVid", "Live now", some "20260110")) :=
  ⟨rfl, rfl⟩

/-- C2: the claim says the Selector returns the eligible entry with the
    maximum effective time. On a candidate set listing `eOlder` before
    `eNewer`, both eligible (truthy id, parsed date inside the window at
    `nowTie`), the code returns `eOlder` — the first in-window entry in
    listing order — although `eNewer` has a strictly greater effective
    time, refuting the claim on the code. -/
theorem C2_selector_returns_first_not_latest :
    pick_latest_video (.ok [eOlder, eNewer]) nowTie =
      .ok (some ("https://www.youtube.com/watch?v=old", "older video", some "20260110")) ∧
    within_recent_window nowTie (some ⟨2026, 1, 11⟩) RECENT_HOURS = true ∧
    parse_upload_date_yyyymmdd "20260111" = .ok (some ⟨2026, 1, 11⟩) ∧
    eNewer.id = some "new" ∧
    dateSeconds ⟨2026, 1, 10⟩ < dateSeconds ⟨2026, 1, 11⟩ :=
  ⟨rfl, rfl, rfl, rfl, by decide⟩

/-- C3: when the pipeline fails on every attempt (whatever the stage or
    message), the retry loop of `process_channel` performs exactly
    `1 + MAX_RETRIES` attempts and returns a `FAILED` outcome whose
    ordered per-attempt failure log has exactly `1 + MAX_RETRIES` lines. -/
theorem C3_always_failing_pipeline_exhausts_retries (env : Env) (name url : String)
    (cache : Cache) (fs : FS) (uc : String) (c1 : Cache) (m : Nat)
    (vurl title : String) (udate : Option String)
    (hres : resolve_uc_id env.net url cache = (.ok uc, c1, m))
    (hpick : pick_latest_video env.listing env.now = .ok (some (vurl, title, udate)))
    (hfail : ∀ i, exIsErr (attemptPure (env.stages i) (baseName name udate)) = true) :
    (process_channel env name url cache fs).res.status = "FAILED" ∧
    (process_channel env name url cache fs).res.attempts = 1 + MAX_RETRIES ∧
    (process_channel env name url cache fs).res.attempt_fail_logs.length = 1 + MAX_RETRIES := by
  rw [process_channel_eq_loop env name url cache fs uc c1 m vurl title udate hres hpick]
  have h := attemptLoop_all_fail env (baseName name udate) hfail (MAX_RETRIES + 1) 0
    { channel := name, status := "FAILED", channel_url := some url,
      uc_id := some uc, resolved_videos_url := some (make_channel_videos_url uc),
      video_url := some vurl, video_title := some title, upload_date := udate }
    {} fs (by omega)
  refine ⟨h.1, ?_, ?_⟩
  · rw [h.2.1]; omega
  · rw [h.2.2]; simp; omega

/-- C3 witness: a concrete run whose download fails on all three attempts. -/
theorem C3_witness :
    (process_channel envC3 "ch" "https://www.youtube.com/@x" [] ⟨[], []⟩).res.status = "FAILED" ∧
    (process_channel envC3 "ch" "https://www.youtube.com/@x" [] ⟨[], []⟩).res.attempts = 1 + MAX_RETRIES ∧
    (process_channel envC3 "ch" "https://www.youtube.com/@x" [] ⟨[], []⟩).res.attempt_fail_logs.length = 1 + MAX_RETRIES :=
  C3_always_failing_pipeline_exhausts_retries envC3 "ch" "https://www.youtube.com/@x" [] ⟨[], []⟩
    "UCabc" [("https://www.youtube.com/@x", "UCabc")] 1
    "https://www.youtube.com/watch?v=vid" "t" (some "20260110") rfl rfl (fun _ => rfl)

/-- C4: when transcription yields only whitespace (or nothing) for every
    segment, the concatenated transcript is empty for every segment list,
    the resulting exception message is classified with the empty-transcript
    label at stage `TRANSCRIBE`, and the channel outcome after exhausting
    all retries is `FAILED` — never `SUCCESS`. -/
theorem C4_whitespace_transcription_fails (env : Env) (name url : String)
    (cache : Cache) (fs : FS) (uc : String) (c1 : Cache) (m : Nat)
    (vurl title : String) (udate : Option String)
    (hres : resolve_uc_id env.net url cache = (.ok uc, c1, m))
    (hpick : pick_latest_video env.listing env.now = .ok (some (vurl, title, udate)))
    (hws : ∀ i p, pyStrip (pyOrStr ((env.stages i).transcribe p) "") = "") :
    (∀ i segs, transcribe_segments (env.stages i).transcribe segs = "") ∧
    (process_channel env name url cache fs).res.status = "FAILED" ∧
    (process_channel env name url cache fs).res.status ≠ "SUCCESS" ∧
    (process_channel env name url cache fs).res.attempts = 1 + MAX_RETRIES ∧
    label_error "Whisper 결과 텍스트가 비어 있음(WHISPER_EMPTY)" = "WHISPER_EMPTY" ∧
    (stage_reason_from_exception "Whisper 결과 텍스트가 비어 있음(WHISPER_EMPTY)").1 = "TRANSCRIBE" := by
  have hfail : ∀ i, exIsErr (attemptPure (env.stages i) (baseName name udate)) = true :=
    fun i => attemptPure_err_of_ws (env.stages i) (baseName name udate) (hws i)
  rw [process_channel_eq_loop env name url cache fs uc c1 m vurl title udate hres hpick]
  have h := attemptLoop_all_fail env (baseName name udate) hfail (MAX_RETRIES + 1) 0
    { channel := name, status := "FAILED", channel_url := some url,
      uc_id := some uc, resolved_videos_url := some (make_channel_videos_url uc),
      video_url := some vurl, video_title := some title, upload_date := udate }
    {} fs (by omega)
  refine ⟨fun i segs => transcribe_segments_empty_of_ws _ (hws i) segs, h.1, ?_, ?_, rfl, rfl⟩
  · rw [h.1]; decide
  · rw [h.2.1]; omega

/-- C4 witness: a concrete run whose transcriber always returns a
    whitespace-only text. -/
theorem C4_witness :
    (∀ i segs, transcribe_segments (envC4.stages i).transcribe segs = "") ∧
    (process_channel envC4 "ch" "https://www.youtube.com/@x" [] ⟨[], []⟩).res.status = "FAILED" ∧
    (process_channel envC4 "ch" "https://www.youtube.com/@x" [] ⟨[], []⟩).res.status ≠ "SUCCESS" ∧
    (process_channel envC4 "ch" "https://www.youtube.com/@x" [] ⟨[], []⟩).res.attempts = 1 + MAX_RETRIES ∧
    label_error "Whisper 결과 텍스트가 비어 있음(WHISPER_EMPTY)" = "WHISPER_EMPTY" ∧
    (stage_reason_from_exception "Whisper 결과 텍스트가 비어 있음(WHISPER_EMPTY)").1 = "TRANSCRIBE" :=
  C4_whitespace_transcription_fails envC4 "ch" "https://www.youtube.com/@x" [] ⟨[], []⟩
    "UCabc" [("https://www.youtube.com/@x", "UCabc")] 1
    "https://www.youtube.com/watch?v=vid" "t" (some "20260110") rfl rfl (fun _ _ => rfl)

/-- C5: resolving two references with the same normal form (in particular
    the same reference twice) against the shared cache yields the same
    canonical id with at most one network lookup in total: the first call
    performs at most one, and the second is a pure cache hit performing
    none and leaving the cache unchanged. -/
theorem C5_resolution_idempotent_cached (net : String → NetResult) (url url2 : String)
    (cache c1 : Cache) (ucid : String) (n : Nat)
    (hnorm : normalize_channel_url url = normalize_channel_url url2)
    (h1 : resolve_uc_id net url cache = (.ok ucid, c1, n)) :
    resolve_uc_id net url2 c1 = (.ok ucid, c1, 0) ∧ n ≤ 1 :=
  resolve_uc_id_idem net url url2 cache c1 ucid n hnorm h1

/-- C5 witness: a mobile-domain reference with a trailing slash and its
    normalised form resolve to the same id, with one lookup then none. -/
theorem C5_witness :
    resolve_uc_id netUC "https://www.youtube.com/@x"
        [("https://www.youtube.com/@x", "UCabc")] =
      (.ok "UCabc", [("https://www.youtube.com/@x", "UCabc")], 0) ∧ 1 ≤ 1 :=
  C5_resolution_idempotent_cached netUC "https://m.youtube.com/@x/" "https://www.youtube.com/@x"
    [] [("https://www.youtube.com/@x", "UCabc")] "UCabc" 1 rfl rfl

/-- C6 counterexample: an entry whose upload date is eight digits but not
    a calendar date has no determinable effective time, yet the Selector
    raises (strptime `ValueError`) instead of returning `None`, and the
    channel outcome is `FAILED`, not `NO_VIDEO` — refuting the claim as
    stated. -/
theorem C6_counterexample :
    parse_upload_date_yyyymmdd (pyOrStr badDateEntry.upload_date "") =
      .error "time data does not match format" ∧
    exIsErr (pick_latest_video (.ok [badDateEntry]) 0) = true ∧
    (process_channel envC6cex "ch" "https://www.youtube.com/@x" [] ⟨[], []⟩).res.status = "FAILED" ∧
    (process_channel envC6cex "ch" "https://www.youtube.com/@x" [] ⟨[], []⟩).res.status ≠ "NO_VIDEO" :=
  ⟨rfl, rfl, rfl, by decide⟩

/-- C6 (amended): when every listed entry's date field is absent or not an
    eight-digit digit string, or parses to an instant outside the recency
    window, the Selector returns `None` and the channel outcome is
    `NO_VIDEO` — a non-error status distinct from `FAILED`, with no
    pipeline attempt. (Eight-digit nondates instead raise and yield
    `FAILED`, per the counterexample.) -/
theorem C6_all_outside_window_no_video (env : Env) (name url : String)
    (cache : Cache) (fs : FS) (uc : String) (c1 : Cache) (m : Nat)
    (entries : List RawEntry)
    (hres : resolve_uc_id env.net url cache = (.ok uc, c1, m))
    (hl : env.listing = .ok entries)
    (hout : ∀ e ∈ entries, entryOutside env.now e) :
    pick_latest_video env.listing env.now = .ok none ∧
    (process_channel env name url cache fs).res.status = "NO_VIDEO" ∧
    (process_channel env name url cache fs).res.status ≠ "FAILED" ∧
    (process_channel env name url cache fs).res.attempts = 0 ∧
    (process_channel env name url cache fs).res.failed_stage = none := by
  have hp := pick_latest_video_none env.listing env.now entries hl hout
  have h := process_channel_no_video env name url cache fs uc c1 m hres hp
  exact ⟨hp, h.1, by rw [h.1]; decide, h.2.1, h.2.2.1⟩

/-- C6 witness: a run whose only listed entry is six years out of window. -/
theorem C6_witness :
    pick_latest_video envC6am.listing envC6am.now = .ok none ∧
    (process_channel envC6am "ch" "https://www.youtube.com/@x" [] ⟨[], []⟩).res.status = "NO_VIDEO" ∧
    (process_channel envC6am "ch" "https://www.youtube.com/@x" [] ⟨[], []⟩).res.status ≠ "FAILED" ∧
    (process_channel envC6am "ch" "https://www.youtube.com/@x" [] ⟨[], []⟩).res.attempts = 0 ∧
    (process_channel envC6am "ch" "https://www.youtube.com/@x" [] ⟨[], []⟩).res.failed_stage = none :=
  C6_all_outside_window_no_video envC6am "ch" "https://www.youtube.com/@x" [] ⟨[], []⟩
    "UCabc" [("https://www.youtube.com/@x", "UCabc")] 1 [outsideEntry] rfl rfl
    (fun e he => by
      rw [List.mem_singleton.mp he]
      exact Or.inr ⟨⟨2020, 1, 1⟩, rfl, rfl⟩)

/-- C7 counterexample: the claim says every working file with the run's
    prefix is deleted before every attempt, so no attempt ever reuses an
    intermediate artifact. The source only attempts the removals and
    swallows failures (`try/except: pass`, src/main.py:367-376): in a run
    whose `os.remove` fails on a stale prefix-matching segment, the
    attempt starts with that file still present (the trace shows it), the
    split scan picks it up, and the run ends `SUCCESS` with a transcript
    that is the transcription of the stale segment — the artifact was
    reused. -/
theorem C7_counterexample :
    strHasPre staleSeg (baseName "ch" (some "20260110")) = true ∧
    rokBad staleSeg = false ∧
    (process_channelR rokBad envC7 "ch" "https://www.youtube.com/@x" [] fsStale).trace =
      [⟨[], [staleSeg]⟩] ∧
    (process_channelR rokBad envC7 "ch" "https://www.youtube.com/@x" [] fsStale).res.status =
      "SUCCESS" ∧
    (process_channelR rokBad envC7 "ch" "https://www.youtube.com/@x" [] fsStale).res.transcript_chars =
      "stale words".data.length :=
  ⟨rfl, rfl, rfl, rfl, rfl⟩

/-- C7 (amended): before every pipeline attempt, including the first,
    removal is attempted for every working file whose name starts with
    the channel-run's working prefix, in both directories, failures being
    silently ignored. Hence (i) under any removal behaviour, every file
    an attempt starts with either lacks the prefix or is one whose
    removal failed; (ii) the primary model `process_channel` is exactly
    the removal-aware run with every removal succeeding; and (iii) in
    that case every attempt starts with no prefix-matching file at all,
    so no attempt reuses an intermediate artifact. -/
theorem C7_wipe_best_effort (rok : String → Bool) (env : Env) (name url : String)
    (cache : Cache) (fs : FS) :
    ((process_channelR rok env name url cache fs).trace).all
      (fsResidChk rok (baseName name (process_channelR rok env name url cache fs).res.upload_date)) = true ∧
    process_channelR (fun _ => true) env name url cache fs =
      process_channel env name url cache fs ∧
    ((process_channel env name url cache fs).trace).all
      (fsCleanChk (baseName name (process_channel env name url cache fs).res.upload_date)) = true := by
  refine ⟨?_, process_channelR_true env name url cache fs, ?_⟩
  · rcases hrr : resolve_uc_id env.net url cache with ⟨r1, c1, n1⟩
    cases r1 with
    | error msg =>
      unfold process_channelR
      rw [hrr]
      rfl
    | ok uc =>
      cases hp : pick_latest_video env.listing env.now with
      | error msg =>
        unfold process_channelR
        rw [hrr, hp]
        rfl
      | ok ov =>
        cases ov with
        | none =>
          unfold process_channelR
          rw [hrr, hp]
          rfl
        | some v =>
          obtain ⟨vurl, title, udate⟩ := v
          rw [process_channelR_eq_loop rok env name url cache fs uc c1 n1 vurl title udate hrr hp]
          have hud := attemptLoopR_upload_date rok env (baseName name udate) (MAX_RETRIES + 1)
            { channel := name, status := "FAILED", channel_url := some url,
              uc_id := some uc, resolved_videos_url := some (make_channel_videos_url uc),
              video_url := some vurl, video_title := some title, upload_date := udate }
            {} fs 0
          show ((attemptLoopR rok env (baseName name udate)
              { channel := name, status := "FAILED", channel_url := some url,
                uc_id := some uc, resolved_videos_url := some (make_channel_videos_url uc),
                video_url := some vurl, video_title := some title, upload_date := udate }
              {} fs 0 (MAX_RETRIES + 1)).2.2).all
            (fsResidChk rok (baseName name (attemptLoopR rok env (baseName name udate)
              { channel := name, status := "FAILED", channel_url := some url,
                uc_id := some uc, resolved_videos_url := some (make_channel_videos_url uc),
                video_url := some vurl, video_title := some title, upload_date := udate }
              {} fs 0 (MAX_RETRIES + 1)).1.upload_date)) = true
          rw [hud]
          exact attemptLoopR_trace_resid rok env (baseName name udate) (MAX_RETRIES + 1)
            { channel := name, status := "FAILED", channel_url := some url,
              uc_id := some uc, resolved_videos_url := some (make_channel_videos_url uc),
              video_url := some vurl, video_title := some title, upload_date := udate }
            {} fs 0
  · rcases hrr : resolve_uc_id env.net url cache with ⟨r1, c1, n1⟩
    cases r1 with
    | error msg =>
      unfold process_channel
      rw [hrr]
      rfl
    | ok uc =>
      cases hp : pick_latest_video env.listing env.now with
      | error msg =>
        unfold process_channel
        rw [hrr, hp]
        rfl
      | ok ov =>
        cases ov with
        | none =>
          unfold process_channel
          rw [hrr, hp]
          rfl
        | some v =>
          obtain ⟨vurl, title, udate⟩ := v
          rw [process_channel_eq_loop env name url cache fs uc c1 n1 vurl title udate hrr hp]
          have hud := attemptLoop_upload_date env (baseName name udate) (MAX_RETRIES + 1)
            { channel := name, status := "FAILED", channel_url := some url,
              uc_id := some uc, resolved_videos_url := some (make_channel_videos_url uc),
              video_url := some vurl, video_title := some title, upload_date := udate }
            {} fs 0
          show ((attemptLoop env (baseName name udate)
              { channel := name, status := "FAILED", channel_url := some url,
                uc_id := some uc, resolved_videos_url := some (make_channel_videos_url uc),
                video_url := some vurl, video_title := some title, upload_date := udate }
              {} fs 0 (MAX_RETRIES + 1)).2.2).all
            (fsCleanChk (baseName name (attemptLoop env (baseName name udate)
              { channel := name, status := "FAILED", channel_url := some url,
                uc_id := some uc, resolved_videos_url := some (make_channel_videos_url uc),
                video_url := some vurl, video_title := some title, upload_date := udate }
              {} fs 0 (MAX_RETRIES + 1)).1.upload_date)) = true
          rw [hud]
          exact attemptLoop_trace_clean env (baseName name udate) (MAX_RETRIES + 1)
            { channel := name, status := "FAILED", channel_url := some url,
              uc_id := some uc, resolved_videos_url := some (make_channel_videos_url uc),
              video_url := some vurl, video_title := some title, upload_date := udate }
            {} fs 0

/-- C8: a failure during identity resolution, or during listing/selection,
    aborts the channel immediately: the outcome is `FAILED` at stage
    `FETCH`, with zero pipeline attempts, an empty per-attempt failure log
    and an empty attempt trace — the retry loop never runs. -/
theorem C8_prefetch_failure_aborts_without_retry (env : Env) (name url : String)
    (cache : Cache) (fs : FS)
    (h : exIsErr (resolve_uc_id env.net url cache).1 = true ∨
         exIsErr (pick_latest_video env.listing env.now) = true) :
    (process_channel env name url cache fs).res.status = "FAILED" ∧
    (process_channel env name url cache fs).res.attempts = 0 ∧
    (process_channel env name url cache fs).res.attempt_fail_logs = [] ∧
    (process_channel env name url cache fs).res.failed_stage = some "FETCH" ∧
    (process_channel env name url cache fs).trace = [] := by
  rcases hrr : resolve_uc_id env.net url cache with ⟨r1, c1, n1⟩
  cases r1 with
  | error msg =>
    unfold process_channel
    rw [hrr]
    exact ⟨rfl, rfl, rfl, rfl, rfl⟩
  | ok uc =>
    cases h with
    | inl hl =>
      rw [hrr] at hl
      simp [exIsErr] at hl
    | inr hr =>
      obtain ⟨msg, hmsg⟩ := (exIsErr_iff _).mp hr
      unfold process_channel
      rw [hrr, hmsg]
      exact ⟨rfl, rfl, rfl, rfl, rfl⟩

/-- C8 witness: a run whose resolver network request fails. -/
theorem C8_witness :
    (process_channel envC8 "ch" "https://www.youtube.com/@x" [] ⟨[], []⟩).res.status = "FAILED" ∧
    (process_channel envC8 "ch" "https://www.youtube.com/@x" [] ⟨[], []⟩).res.attempts = 0 ∧
    (process_channel envC8 "ch" "https://www.youtube.com/@x" [] ⟨[], []⟩).res.attempt_fail_logs = [] ∧
    (process_channel envC8 "ch" "https://www.youtube.com/@x" [] ⟨[], []⟩).res.failed_stage = some "FETCH" ∧
    (process_channel envC8 "ch" "https://www.youtube.com/@x" [] ⟨[], []⟩).trace = [] :=
  C8_prefetch_failure_aborts_without_retry envC8 "ch" "https://www.youtube.com/@x" [] ⟨[], []⟩
    (Or.inl rfl)

/-- C9: when the first `j` attempts fail and attempt `j` (0-based, within
    the cap) succeeds, the outcome is `SUCCESS` after `j + 1` attempts;
    the `j` per-attempt failure records remain retained internally, while
    the failed-stage, failure-label and error-detail fields are cleared to
    `None` and the transcript character count is reported. -/
theorem C9_success_after_failures_clears_failure_fields (env : Env) (name url : String)
    (cache : Cache) (fs : FS) (uc : String) (c1 : Cache) (m : Nat)
    (vurl title : String) (udate : Option String) (j : Nat) (t : String)
    (hres : resolve_uc_id env.net url cache = (.ok uc, c1, m))
    (hpick : pick_latest_video env.listing env.now = .ok (some (vurl, title, udate)))
    (hj : j < 1 + MAX_RETRIES)
    (hb : ∀ i, i < j → exIsErr (attemptPure (env.stages i) (baseName name udate)) = true)
    (hs : attemptPure (env.stages j) (baseName name udate) = .ok t) :
    (process_channel env name url cache fs).res.status = "SUCCESS" ∧
    (process_channel env name url cache fs).res.attempts = j + 1 ∧
    (process_channel env name url cache fs).res.attempt_fail_logs.length = j ∧
    (process_channel env name url cache fs).res.failed_stage = none ∧
    (process_channel env name url cache fs).res.fail_label = none ∧
    (process_channel env name url cache fs).res.error_detail = none ∧
    (process_channel env name url cache fs).res.transcript_chars = t.data.length := by
  rw [process_channel_eq_loop env name url cache fs uc c1 m vurl title udate hres hpick]
  have h := attemptLoop_succ_at env (baseName name udate) j (MAX_RETRIES + 1) 0
    { channel := name, status := "FAILED", channel_url := some url,
      uc_id := some uc, resolved_videos_url := some (make_channel_videos_url uc),
      video_url := some vurl, video_title := some title, upload_date := udate }
    {} fs t (fun i hi => by simpa using hb i hi) (by simpa using hs) (by omega)
  refine ⟨h.1, ?_, ?_, h.2.2.2.1, h.2.2.2.2.1, h.2.2.2.2.2.1, h.2.2.2.2.2.2⟩
  · rw [h.2.1]; omega
  · rw [h.2.2.1]; simp

/-- C9 witness: a concrete run failing once, then succeeding on the second
    attempt with a five-character transcript. -/
theorem C9_witness :
    (process_channel envC9 "ch" "https://www.youtube.com/@x" [] ⟨[], []⟩).res.status = "SUCCESS" ∧
    (process_channel envC9 "ch" "https://www.youtube.com/@x" [] ⟨[], []⟩).res.attempts = 1 + 1 ∧
    (process_channel envC9 "ch" "https://www.youtube.com/@x" [] ⟨[], []⟩).res.attempt_fail_logs.length = 1 ∧
    (process_channel envC9 "ch" "https://www.youtube.com/@x" [] ⟨[], []⟩).res.failed_stage = none ∧
    (process_channel envC9 "ch" "https://www.youtube.com/@x" [] ⟨[], []⟩).res.fail_label = none ∧
    (process_channel envC9 "ch" "https://www.youtube.com/@x" [] ⟨[], []⟩).res.error_detail = none ∧
    (process_channel envC9 "ch" "https://www.youtube.com/@x" [] ⟨[], []⟩).res.transcript_chars = "hello".data.length :=
  C9_success_after_failures_clears_failure_fields envC9 "ch" "https://www.youtube.com/@x" [] ⟨[], []⟩
    "UCabc" [("https://www.youtube.com/@x", "UCabc")] 1
    "https://www.youtube.com/watch?v=vid" "t" (some "20260110") 1 "hello" rfl rfl
    (by decide)
    (fun i hi => by
      cases i with
      | zero => rfl
      | succ i2 => exact absurd hi (by omega))
    rfl

/-- C10: whenever `resolve_uc_id` raises — non-zero listing-tool exit,
    metadata without a channel id, or an id that fails the `UC` shape
    check — the shared cache after the call is exactly the cache before
    it: the write happens only after successful validation. -/
theorem C10_failed_resolution_leaves_cache (net : String → NetResult) (url : String)
    (cache : Cache) (msg : String)
    (h : (resolve_uc_id net url cache).1 = .error msg) :
    (resolve_uc_id net url cache).2.1 = cache :=
  resolve_uc_id_err_cache net url cache msg h

/-- C10 witness: a lookup returning a non-`UC` id raises and leaves the
    pre-existing cache binding untouched. -/
theorem C10_witness :
    (resolve_uc_id netBadId "https://www.youtube.com/@y" [("k", "UCv")]).2.1 = [("k", "UCv")] :=
  C10_failed_resolution_leaves_cache netBadId "https://www.youtube.com/@y" [("k", "UCv")]
    "channel_id 추출 실패" rfl

end Digest
